import Mathlib

/-!
# QrScannerLib

A shallow embedding of `src/qr-scanner-lib.js`.  The fields of a `QrScannerLib`
instance together with the parts of the browser it talks to (the video element,
the animation-frame queue, the timer table, the decode worker and the pending
`getUserMedia` promises) form one record `Scanner`.  Every method of the class is
a function `Scanner → … → Scanner`; what a method does to the outside world is
appended to the field `log`.
-/

namespace QrScannerLib

/-! ## Values exchanged with the outside world -/

/-- The value found in `event.data.data` of a worker message. -/
inductive Data where
  | null
  | undefined
  | value (payload : String)
  deriving DecidableEq, Repr

/-- One candidate handed to `getUserMedia` as the `video` constraint. -/
structure Constraint where
  facingMode : String
  minWidth : Option Nat
  deriving DecidableEq, Repr

/-- Identity of a `MediaStream` delivered by `getUserMedia`. -/
abbrev Stream := Nat

/-- Calls that leave the instance, in the order they are made. -/
inductive Effect where
  /-- The call `$context.drawImage($video, sx, sy, sw, sh, dx, dy, dw, dh)`. -/
  | drawImage (sx sy : ℚ) (sw sh : ℤ) (dx dy dw dh : ℤ)
  /-- The call `$context.getImageData(sx, sy, sw, sh)`. -/
  | getImageData (sx sy sw sh : ℤ)
  /-- The call `_qrWorker.postMessage` with a message of the given `type`. -/
  | postMessage (type : String)
  /-- The call `requestAnimationFrame(() => this._scanFrame())`. -/
  | requestAnimationFrame
  /-- The call `this._onDecode(data)`. -/
  | onDecode (data : Data)
  /-- The call `navigator.mediaDevices.getUserMedia` with the given `video`
  constraint; `none` is `undefined`. -/
  | getUserMedia (video : Option Constraint)
  /-- The assignment `this.$video.srcObject = stream`. -/
  | setSrcObject (stream : Stream)
  /-- The call `this.$video.pause()`. -/
  | pause
  /-- The call `this.$video.srcObject.getTracks()[0].stop()`. -/
  | trackStop (stream : Stream)
  /-- An exception that nobody catches. -/
  | throwError (message : String)
  deriving DecidableEq, Repr

/-- A pending browser timer created by `setTimeout`. -/
structure Timer where
  id : Nat
  deadline : Nat
  deriving DecidableEq, Repr

/-! ## The instance -/

/-- The state of one `QrScannerLib` instance and of the browser objects it uses. -/
structure Scanner where
  /-- Attribute `$video.videoWidth`. -/
  videoWidth : Nat
  /-- Attribute `$video.videoHeight`. -/
  videoHeight : Nat
  /-- Attribute `$video.paused`. -/
  paused : Bool
  /-- Attribute `$video.ended`. -/
  ended : Bool
  /-- Attribute `$video.srcObject`; `none` is `null`. -/
  srcObject : Option Stream
  /-- Field `_canvasSize`. -/
  canvasSize : Nat
  /-- Field `_sourceRectSize`. -/
  sourceRectSize : ℤ
  /-- Field `_offTimeout`; `none` is `undefined`. -/
  offTimeout : Option Nat
  /-- The clock, in milliseconds. -/
  now : Nat
  /-- Timers set and neither fired nor cleared, oldest first. -/
  timers : List Timer
  /-- The id the next `setTimeout` returns. -/
  nextTimerId : Nat
  /-- Number of callbacks registered with `requestAnimationFrame` and not yet run. -/
  rafPending : Nat
  /-- Number of 'decode' messages posted to `_qrWorker` and not yet answered. -/
  unanswered : Nat
  /-- One entry per unsettled `getUserMedia` promise: the `settingsToTry`
  array its `catch` handler closes over, as it is after the `shift()`. -/
  gumPending : List (List Constraint)
  /-- The calls made so far. -/
  log : List Effect
  deriving DecidableEq, Repr

/-- The function `Math.round` on the exact value: the nearest integer, a tie going
towards `+∞`.  The source evaluates `2 / 3 * smallestDimension` in double precision.
A dimension `n` is an integer below `2 ^ 32`, for which the double differs from
`2 n / 3` by less than `2 ^ -20`, while `2 n / 3` is an integer or lies `1 / 6` away
from the nearest tie: `Math.round` of the double and of the exact value agree. -/
def mathRound (x : ℚ) : ℤ := ⌊x + 1 / 2⌋

/-- The class constructor: `canvasWidth` is `canvas.width`, the other arguments are
the state in which the video element is handed over. -/
def constructor (videoWidth videoHeight : Nat) (paused ended : Bool) (srcObject : Option Stream)
    (canvasWidth : Nat) : Scanner where
  videoWidth := videoWidth
  videoHeight := videoHeight
  paused := paused
  ended := ended
  srcObject := srcObject
  canvasSize := canvasWidth
  sourceRectSize := canvasWidth
  offTimeout := none
  now := 0
  timers := []
  nextTimerId := 1
  rafPending := 0
  unanswered := 0
  gumPending := []
  log := []

/-- Source lines 19-22. -/
def _updateSourceRect (s : Scanner) : Scanner :=
  let smallestDimension := min s.videoWidth s.videoHeight
  { s with sourceRectSize := mathRound (2 / 3 * (smallestDimension : ℚ)) }

/-- Source lines 24-34.  The corner `(x0, y0)` is half of an integer, which double
precision holds exactly. -/
def _scanFrame (s : Scanner) : Scanner :=
  if s.paused || s.ended then s
  else
    let x0 : ℚ := ((s.videoWidth : ℚ) - (s.sourceRectSize : ℚ)) / 2
    let y0 : ℚ := ((s.videoHeight : ℚ) - (s.sourceRectSize : ℚ)) / 2
    { s with
      log := s.log ++
        [Effect.drawImage x0 y0 s.sourceRectSize s.sourceRectSize 0 0 s.canvasSize s.canvasSize,
         Effect.getImageData 0 0 s.canvasSize s.canvasSize,
         Effect.postMessage "decode"]
      unanswered := s.unanswered + 1 }

/-- Source lines 36-44. -/
def _handleWorkerMessage (s : Scanner) (type : String) (data : Data) : Scanner :=
  if type ≠ "qrResult" then s
  else
    let s := { s with
      rafPending := s.rafPending + 1
      log := s.log ++ [Effect.requestAnimationFrame] }
    if data = Data.null then s
    else { s with log := s.log ++ [Effect.onDecode data] }

/-- The default candidates of `_cameraOn`, source lines 55-63. -/
def defaultSettings : List Constraint :=
  [{ facingMode := "environment", minWidth := some 1024 },
   { facingMode := "environment", minWidth := some 768 },
   { facingMode := "environment", minWidth := none }]

/-- The browser function `clearTimeout`: the timer with the given id, if it is still
pending, is dropped; `undefined` and the id of a timer that has fired clear nothing. -/
def clearTimeout (s : Scanner) (id : Option Nat) : Scanner :=
  match id with
  | none => s
  | some i => { s with timers := s.timers.filter (fun t => t.id ≠ i) }

/-- The browser function `setTimeout`: a new timer that is due `delay` milliseconds
from now; its id is returned. -/
def setTimeout (s : Scanner) (delay : Nat) : Scanner × Nat :=
  ({ s with
      timers := s.timers ++ [{ id := s.nextTimerId, deadline := s.now + delay }]
      nextTimerId := s.nextTimerId + 1 },
   s.nextTimerId)

/-- Source lines 53-76, up to the call of `getUserMedia`: the pending timer named by
`_offTimeout` is cleared, the first candidate is shifted off `settingsToTry` and
requested.  An array, even an empty one, is truthy, so only `undefined` is replaced
by the default candidates. -/
def _cameraOn (s : Scanner) (settingsToTry : Option (List Constraint)) : Scanner :=
  let s := clearTimeout s s.offTimeout
  let settingsToTry := settingsToTry.getD defaultSettings
  { s with
    log := s.log ++ [Effect.getUserMedia settingsToTry.head?]
    gumPending := s.gumPending ++ [settingsToTry.tail] }

/-- The `then` handler of source line 68. -/
def _cameraOn_then (s : Scanner) (stream : Stream) : Scanner :=
  { s with
    srcObject := some stream
    log := s.log ++ [Effect.setSrcObject stream] }

/-- The `catch` handler of source lines 69-75; `settingsToTry` is what is left of the
array after the `shift()`. -/
def _cameraOn_catch (s : Scanner) (settingsToTry : List Constraint) : Scanner :=
  if settingsToTry.length > 0 then _cameraOn s (some settingsToTry)
  else { s with log := s.log ++ [Effect.throwError "Couldn't start camera"] }

/-- The callback of the timer of source line 80. -/
def _cameraOff_timeout (s : Scanner) : Scanner :=
  match s.srcObject with
  | some stream => { s with log := s.log ++ [Effect.trackStop stream] }
  | none => { s with log := s.log ++ [Effect.throwError "TypeError"] }

/-- Source lines 78-81. -/
def _cameraOff (s : Scanner) : Scanner :=
  let s := { s with paused := true, log := s.log ++ [Effect.pause] }
  let r := setTimeout s 3000
  { r.1 with offTimeout := some r.2 }

/-- Source lines 83-88. -/
def setGrayscaleWeights (s : Scanner) (_red _green _blue : ℚ) : Scanner :=
  { s with log := s.log ++ [Effect.postMessage "grayscaleWeights"] }

/-- The setter `active`, source lines 46-51. -/
def set_active (s : Scanner) (active : Bool) : Scanner :=
  if active then _cameraOn s none else _cameraOff s

/-- Time passes: the clock advances by `ms` and every timer that has become due runs
its callback, the oldest timer first. -/
def elapse (s : Scanner) (ms : Nat) : Scanner :=
  let t := s.now + ms
  let due := s.timers.filter (fun tm => tm.deadline ≤ t)
  let s := { s with now := t, timers := s.timers.filter (fun tm => ¬ tm.deadline ≤ t) }
  due.foldl (fun s _ => _cameraOff_timeout s) s

/-! ## The event loop -/

/-- What can happen to an instance. -/
inductive Event where
  /-- The window fires 'resize'. -/
  | resize
  /-- The video fires 'canplay'. -/
  | canplay
  /-- The video fires 'play'. -/
  | play
  /-- The worker sends a message. -/
  | message (type : String) (data : Data)
  /-- The browser runs one callback registered with `requestAnimationFrame`. -/
  | animationFrame
  /-- The owner assigns to `active`. -/
  | setActive (active : Bool)
  /-- The owner calls `setGrayscaleWeights`. -/
  | setGrayscaleWeights (red green blue : ℚ)
  /-- Time passes. -/
  | elapse (ms : Nat)
  /-- The `i`-th unsettled `getUserMedia` promise is fulfilled with `stream`. -/
  | streamOpened (i : Nat) (stream : Stream)
  /-- The `i`-th unsettled `getUserMedia` promise is rejected. -/
  | streamFailed (i : Nat)
  /-- The native dimensions of the video change. -/
  | videoResized (videoWidth videoHeight : Nat)
  /-- The playback flags of the video change other than through `pause()`. -/
  | videoPlayback (paused ended : Bool)
  deriving DecidableEq, Repr

/-- Modelled from the spec: the decode engine `qr-scanner-worker.min.js` is not among
the sources; by the decode engine protocol a `Decode` request is answered by one
`Result` response, so a 'qrResult' message arrives only while a 'decode' message is
unanswered, and it answers one of them. -/
def workerAnswers (s : Scanner) : Option Scanner :=
  if s.unanswered = 0 then none else some { s with unanswered := s.unanswered - 1 }

/-- One event, handled by the listeners the constructor registers (source lines
12-16) and by the callbacks the methods hand to the browser.  The result is `none`
when the event cannot happen in state `s`. -/
def step (s : Scanner) : Event → Option Scanner
  | Event.resize => some (_updateSourceRect s)
  | Event.canplay => some (_updateSourceRect s)
  | Event.play => some (_scanFrame s)
  | Event.message type data =>
    if type = "qrResult" then
      (workerAnswers s).map (fun s => _handleWorkerMessage s type data)
    else some (_handleWorkerMessage s type data)
  | Event.animationFrame =>
    if s.rafPending = 0 then none
    else some (_scanFrame { s with rafPending := s.rafPending - 1 })
  | Event.setActive active => some (set_active s active)
  | Event.setGrayscaleWeights red green blue => some (setGrayscaleWeights s red green blue)
  | Event.elapse ms => some (elapse s ms)
  | Event.streamOpened i stream =>
    match s.gumPending.get? i with
    | none => none
    | some _ => some (_cameraOn_then { s with gumPending := s.gumPending.eraseIdx i } stream)
  | Event.streamFailed i =>
    match s.gumPending.get? i with
    | none => none
    | some settingsToTry =>
      some (_cameraOn_catch { s with gumPending := s.gumPending.eraseIdx i } settingsToTry)
  | Event.videoResized w h => some { s with videoWidth := w, videoHeight := h }
  | Event.videoPlayback paused ended => some { s with paused := paused, ended := ended }

/-- A sequence of events, from left to right. -/
def run (s : Scanner) : List Event → Option Scanner
  | [] => some s
  | e :: es => (step s e).bind (fun s => run s es)

/-- The call the callback of the teardown timer makes in state `s`. -/
def teardownEffect (s : Scanner) : Effect :=
  match s.srcObject with
  | some stream => Effect.trackStop stream
  | none => Effect.throwError "TypeError"

/-- The entries of the log that stop a track. -/
def teardowns (s : Scanner) : List Effect :=
  s.log.filter (fun e => match e with | Effect.trackStop _ => true | _ => false)

/-- The entries of the log that request a capture session. -/
def captureRequests (s : Scanner) : List Effect :=
  s.log.filter (fun e => match e with | Effect.getUserMedia _ => true | _ => false)

/-- The scan loop is stopped: no 'decode' message is unanswered and no resample is
scheduled. -/
def loopStopped (s : Scanner) : Bool :=
  s.unanswered + s.rafPending == 0

/-- Every 'play' event of the sequence that finds the video playing (neither paused
nor ended) finds the scan loop stopped. -/
def playsWhenStopped (s : Scanner) : List Event → Bool
  | [] => true
  | e :: es =>
    (e != Event.play || s.paused || s.ended || loopStopped s) &&
      match step s e with
      | none => true
      | some s => playsWhenStopped s es

/-- The milliseconds that pass during a sequence of events. -/
def waited : List Event → Nat
  | [] => 0
  | Event.elapse ms :: es => ms + waited es
  | _ :: es => waited es

/-- The stored crop size is the one `_updateSourceRect` computes from the present
dimensions. -/
def cropUpToDate (s : Scanner) : Prop :=
  s.sourceRectSize = mathRound (2 / 3 * ((min s.videoWidth s.videoHeight : ℕ) : ℚ))

/-! ## The static methods -/

/-- What a promise is rejected with. -/
inductive Reason where
  /-- The call `reject()` without an argument. -/
  | undefined
  /-- The error event of a worker. -/
  | errorEvent (message : String)
  /-- A string given as the reason. -/
  | text (message : String)
  /-- An exception thrown by a browser call, by its name. -/
  | exception (name : String)
  deriving DecidableEq, Repr

/-- An `Image` element, known by its `src`. -/
structure Image where
  src : String
  deriving DecidableEq, Repr

/-- The argument `imageOrFileOrUrl`, by the tests of source lines 128-134. -/
inductive ImageSource where
  | canvas (width height : Nat)
  | imageBitmap (width height : Nat)
  | image (image : Image)
  | file (name : String)
  | url (href : String)
  | string (text : String)
  | other
  deriving DecidableEq, Repr

/-- The events `_awaitImageLoad` listens for. -/
inductive LoadSignal where
  | load
  | error
  deriving DecidableEq, Repr

/-- How the browser treats the image that `_awaitImageLoad` is given: the values of
`image.complete` and `image.naturalWidth` at the call, and which of 'load' and
'error' it fires first afterwards (`none`: neither). -/
structure ImageLoad where
  complete : Bool
  naturalWidth : Nat
  signal : Option LoadSignal
  deriving DecidableEq, Repr

/-- The state of a promise. -/
inductive Promise (α : Type) where
  | pending
  | fulfilled (value : α)
  | rejected (reason : Reason)
  deriving DecidableEq, Repr

/-- Calls on `URL` made while loading. -/
inductive UrlEffect where
  | createObjectURL (file : String)
  | revokeObjectURL (url : String)
  deriving DecidableEq, Repr

/-- The string `URL.createObjectURL` returns for a file. -/
def objectURL (file : String) : String := "blob:" ++ file

/-- Source lines 153-171. -/
def _awaitImageLoad (_image : Image) (b : ImageLoad) : Promise Unit :=
  if b.complete && b.naturalWidth != 0 then Promise.fulfilled ()
  else
    match b.signal with
    | some LoadSignal.load => Promise.fulfilled ()
    | some LoadSignal.error => Promise.rejected Reason.undefined
    | none => Promise.pending

/-- Source lines 127-150: the promise returned and the calls made on `URL`.  The
literal `typeof('ImageBitmap')` is the type of a string, so the first test is
`instanceof HTMLCanvasElement || instanceof ImageBitmap`. -/
def _loadImage (imageOrFileOrUrl : ImageSource) (b : ImageLoad) :
    Promise ImageSource × List UrlEffect :=
  match imageOrFileOrUrl with
  | ImageSource.canvas w h => (Promise.fulfilled (ImageSource.canvas w h), [])
  | ImageSource.imageBitmap w h => (Promise.fulfilled (ImageSource.imageBitmap w h), [])
  | ImageSource.image img =>
    match _awaitImageLoad img b with
    | Promise.fulfilled () => (Promise.fulfilled (ImageSource.image img), [])
    | Promise.rejected r => (Promise.rejected r, [])
    | Promise.pending => (Promise.pending, [])
  | ImageSource.file name =>
    let image : Image := { src := objectURL name }
    match _awaitImageLoad image b with
    | Promise.fulfilled () =>
      (Promise.fulfilled (ImageSource.image image),
       [UrlEffect.createObjectURL name, UrlEffect.revokeObjectURL image.src])
    | Promise.rejected r => (Promise.rejected r, [UrlEffect.createObjectURL name])
    | Promise.pending => (Promise.pending, [UrlEffect.createObjectURL name])
  | ImageSource.url href =>
    let image : Image := { src := href }
    match _awaitImageLoad image b with
    | Promise.fulfilled () => (Promise.fulfilled (ImageSource.image image), [])
    | Promise.rejected r => (Promise.rejected r, [])
    | Promise.pending => (Promise.pending, [])
  | ImageSource.string text =>
    let image : Image := { src := text }
    match _awaitImageLoad image b with
    | Promise.fulfilled () => (Promise.fulfilled (ImageSource.image image), [])
    | Promise.rejected r => (Promise.rejected r, [])
    | Promise.pending => (Promise.pending, [])
  | ImageSource.other => (Promise.rejected (Reason.text "Unsupported image type."), [])

/-- What the canvas calls of `_getImageData` meet in the image beyond its kind: the
`width` and `height` an `Image` element reports, and whether the pixels may be read
(`false` for an image or a canvas that holds cross-origin data). -/
structure Readback where
  imageWidth : Nat
  imageHeight : Nat
  originClean : Bool
  deriving DecidableEq, Repr

/-- The object `getImageData` returns, known by its dimensions. -/
structure ImageData where
  width : Nat
  height : Nat
  deriving DecidableEq, Repr

/-- The call `context.getImageData(0, 0, width, height)` of source line 123: it
throws `IndexSizeError` for a width or height of zero and `SecurityError` when what
was drawn may not be read. -/
def getImageData (width height : Nat) (originClean : Bool) : Except Reason ImageData :=
  if width = 0 ∨ height = 0 then Except.error (Reason.exception "IndexSizeError")
  else if originClean then Except.ok { width := width, height := height }
  else Except.error (Reason.exception "SecurityError")

/-- Source lines 117-124.  The comment `/* async */` in front of the method
notwithstanding, it returns the image data and not a promise, and what its canvas
calls throw reaches the caller.  The call `drawImage` of source line 122 throws
`InvalidStateError` for a canvas with a dimension of zero and for a closed
`ImageBitmap` (its width and height are zero), and `TypeError` for what is not an
image; a loaded `Image` element it draws. -/
def _getImageData (image : ImageSource) (r : Readback) : Except Reason ImageData :=
  match image with
  | ImageSource.canvas width height =>
    if width = 0 ∨ height = 0 then Except.error (Reason.exception "InvalidStateError")
    else getImageData width height r.originClean
  | ImageSource.imageBitmap width height =>
    if width = 0 ∨ height = 0 then Except.error (Reason.exception "InvalidStateError")
    else getImageData width height r.originClean
  | ImageSource.image _ => getImageData r.imageWidth r.imageHeight r.originClean
  | _ => Except.error (Reason.exception "TypeError")

/-- How the promise returned by `scanImage` has settled. -/
inductive Settled where
  | resolved (data : Data)
  | rejected (reason : Reason)
  deriving DecidableEq, Repr

/-- One call of `scanImage`: the promise it returned, its timer and its worker. -/
structure OneShot where
  /-- Milliseconds since the call. -/
  now : Nat
  /-- The deadline of the timer of source line 92 while it is pending. -/
  timeout : Option Nat
  /-- The promise returned: `none` while it is pending. -/
  promise : Option Settled
  /-- Number of 'decode' messages posted to the worker. -/
  posted : Nat
  /-- While the handlers of source lines 106-112 wait for the image to fire 'load' or
  'error': what the `_loadImage` promise settles with once it has, and what
  `_getImageData` will meet. -/
  loading : Option (Promise ImageSource × Readback)
  deriving DecidableEq, Repr

/-- The function `resolve` of the promise: a settled promise stays as it is. -/
def OneShot.resolve (s : OneShot) (data : Data) : OneShot :=
  match s.promise with
  | none => { s with promise := some (Settled.resolved data) }
  | some _ => s

/-- The function `reject` of the promise: a settled promise stays as it is. -/
def OneShot.reject (s : OneShot) (reason : Reason) : OneShot :=
  match s.promise with
  | none => { s with promise := some (Settled.rejected reason) }
  | some _ => s

/-- The handlers of source lines 106-112, run when the `_loadImage` promise has
settled: when the image has loaded, `_getImageData` reads it and the image data are
posted, or what `_getImageData` throws goes to `reject` through the `catch`; when the
load has failed, its reason goes to `reject` the same way. -/
def OneShot.loaded (s : OneShot) (load : Promise ImageSource) (r : Readback) : OneShot :=
  match load with
  | Promise.fulfilled image =>
    match _getImageData image r with
    | Except.ok _ => { s with posted := s.posted + 1 }
    | Except.error thrown => s.reject thrown
  | Promise.rejected reason => s.reject reason
  | Promise.pending => s

/-- Source lines 90-114: the timer is set; when the `_loadImage` promise is settled
at the call (a bitmap, a complete image, an unsupported argument) its handlers run
at once, otherwise they wait for the image to fire 'load' or 'error'. -/
def scanImage (imageOrFileOrUrl : ImageSource) (b : ImageLoad) (r : Readback) : OneShot :=
  let s : OneShot :=
    { now := 0, timeout := some 3000, promise := none, posted := 0, loading := none }
  match (_loadImage imageOrFileOrUrl { b with signal := none }).1 with
  | Promise.pending => { s with loading := some ((_loadImage imageOrFileOrUrl b).1, r) }
  | settled => s.loaded settled r

/-- The handler `worker.onmessage`, source lines 95-105. -/
def OneShot.onmessage (s : OneShot) (type : String) (data : Data) : OneShot :=
  if type ≠ "qrResult" then s
  else
    let s := { s with timeout := none }
    if data ≠ Data.null then s.resolve data else s.reject Reason.undefined

/-- What can happen after `scanImage` has been called. -/
inductive OneShotEvent where
  /-- The worker sends a message. -/
  | message (type : String) (data : Data)
  /-- The worker fires 'error'. -/
  | error (message : String)
  /-- The image that is loading fires the first of 'load' and 'error'. -/
  | imageSettled
  /-- Time passes. -/
  | elapse (ms : Nat)
  deriving DecidableEq, Repr

/-- One event: a message goes to `onmessage`, an error to `reject` (source line 94),
the signal of the image lets the waiting handlers run, and when the clock reaches
the deadline of the pending timer its callback `reject` runs without an argument
(source line 92). -/
def OneShot.step (s : OneShot) : OneShotEvent → OneShot
  | OneShotEvent.message type data => s.onmessage type data
  | OneShotEvent.error message => s.reject (Reason.errorEvent message)
  | OneShotEvent.imageSettled =>
    match s.loading with
    | none => s
    | some (load, r) => OneShot.loaded { s with loading := none } load r
  | OneShotEvent.elapse ms =>
    let s := { s with now := s.now + ms }
    match s.timeout with
    | none => s
    | some deadline =>
      if deadline ≤ s.now then OneShot.reject { s with timeout := none } Reason.undefined
      else s

/-- A sequence of events, from left to right. -/
def OneShot.run (s : OneShot) (events : List OneShotEvent) : OneShot :=
  events.foldl OneShot.step s

/-- An argument of `scanImage` that is an in-memory bitmap already: a canvas or an
`ImageBitmap`. -/
def ImageSource.realized : ImageSource → Bool
  | ImageSource.canvas _ _ => true
  | ImageSource.imageBitmap _ _ => true
  | _ => false

/-- The milliseconds that pass during a sequence of events. -/
def elapsed : List OneShotEvent → Nat
  | [] => 0
  | OneShotEvent.elapse ms :: es => ms + elapsed es
  | _ :: es => elapsed es

/-- The worker neither sends a 'qrResult' message nor fires 'error' during the
sequence of events. -/
def noResult : List OneShotEvent → Bool
  | [] => true
  | OneShotEvent.message type _ :: es => type != "qrResult" && noResult es
  | OneShotEvent.error _ :: _ => false
  | OneShotEvent.imageSettled :: es => noResult es
  | OneShotEvent.elapse _ :: es => noResult es

/-! ## Lemmas on the methods -/

theorem mathRound_eq_round (x : ℚ) : mathRound x = round x := by
  unfold mathRound
  rw [round_eq]

theorem _cameraOff_timeout_eq (s : Scanner) :
    _cameraOff_timeout s = { s with log := s.log ++ [teardownEffect s] } := by
  unfold _cameraOff_timeout teardownEffect
  cases h : s.srcObject <;> rfl

theorem foldl_timeout (l : List Timer) (s : Scanner) :
    l.foldl (fun s _ => _cameraOff_timeout s) s
      = { s with log := s.log ++ List.replicate l.length (teardownEffect s) } := by
  induction l generalizing s with
  | nil => simp
  | cons t l ih =>
    rw [List.foldl_cons, ih, _cameraOff_timeout_eq]
    simp [teardownEffect, List.replicate_succ]

theorem elapse_eq (s : Scanner) (ms : Nat) :
    elapse s ms =
      { s with
        now := s.now + ms
        timers := s.timers.filter (fun tm => ¬ tm.deadline ≤ s.now + ms)
        log := s.log ++ List.replicate
          (s.timers.filter (fun tm => tm.deadline ≤ s.now + ms)).length (teardownEffect s) } := by
  unfold elapse
  simp only [foldl_timeout]
  rfl

/-! ## The scan loop -/

theorem step_loop (s s' : Scanner) (e : Event) (hs : step s e = some s')
    (hplay : e = Event.play → (s.paused || s.ended) = true ∨ s.unanswered + s.rafPending = 0)
    (hinv : s.unanswered + s.rafPending ≤ 1) :
    s'.unanswered + s'.rafPending ≤ 1 := by
  cases e with
  | resize => simp [step, _updateSourceRect] at hs; subst hs; simpa using hinv
  | canplay => simp [step, _updateSourceRect] at hs; subst hs; simpa using hinv
  | play =>
    simp only [step, Option.some.injEq] at hs
    subst hs
    unfold _scanFrame
    rcases hplay rfl with h0 | h0
    · rw [if_pos h0]
      exact hinv
    · split
      · exact hinv
      · simp only []
        omega
  | message type data =>
    simp only [step, workerAnswers] at hs
    by_cases ht : type = "qrResult"
    · subst ht
      by_cases hu : s.unanswered = 0
      · simp [hu] at hs
      · simp [hu] at hs
        subst hs
        unfold _handleWorkerMessage
        by_cases hd : data = Data.null <;> simp [hd] <;> omega
    · simp [ht, _handleWorkerMessage] at hs
      subst hs
      exact hinv
  | animationFrame =>
    simp only [step] at hs
    by_cases hr : s.rafPending = 0
    · simp [hr] at hs
    · simp [hr] at hs
      subst hs
      unfold _scanFrame
      split <;> simp <;> omega
  | setActive active =>
    simp only [step, Option.some.injEq] at hs
    subst hs
    cases active <;>
      simp [set_active, _cameraOn, _cameraOff, setTimeout, clearTimeout] <;>
      (try split) <;> simpa using hinv
  | elapse ms =>
    simp only [step, Option.some.injEq] at hs
    subst hs
    rw [elapse_eq]
    simpa using hinv
  | streamOpened i stream =>
    simp only [step] at hs
    split at hs
    · simp at hs
    · simp only [Option.some.injEq] at hs
      subst hs
      simpa [_cameraOn_then] using hinv
  | streamFailed i =>
    simp only [step] at hs
    split at hs
    · simp at hs
    · simp only [Option.some.injEq] at hs
      subst hs
      unfold _cameraOn_catch
      split
      · simp only [_cameraOn, clearTimeout]
        split <;> simpa using hinv
      · simpa using hinv
  | setGrayscaleWeights r g b =>
    simp [step, setGrayscaleWeights] at hs; subst hs; simpa using hinv
  | videoResized w h => simp [step] at hs; subst hs; simpa using hinv
  | videoPlayback p en => simp [step] at hs; subst hs; simpa using hinv

theorem run_loop (evs : List Event) (s s' : Scanner) (hr : run s evs = some s')
    (hq : playsWhenStopped s evs = true) (hinv : s.unanswered + s.rafPending ≤ 1) :
    s'.unanswered + s'.rafPending ≤ 1 := by
  induction evs generalizing s with
  | nil =>
    simp only [run, Option.some.injEq] at hr
    subst hr
    exact hinv
  | cons e es ih =>
    simp only [run] at hr
    cases hstep : step s e with
    | none => simp [hstep] at hr
    | some s1 =>
      simp only [hstep, Option.some_bind] at hr
      simp only [playsWhenStopped, hstep, Bool.and_eq_true, Bool.or_eq_true] at hq
      refine ih s1 hr hq.2 (step_loop s s1 e hstep ?_ hinv)
      intro he
      subst he
      rcases hq.1 with ((h | h) | h) | h
      · simp at h
      · exact Or.inl (by simp [h])
      · exact Or.inl (by simp [h])
      · exact Or.inr (by simpa [loopStopped] using h)

/-! ## The scan loop: claims -/

/-- C1, as stated, fails: the video starts playing and a frame is posted; the owner
pauses through `active = false`; playback resumes and the 'play' listener posts a
second frame while the first one is still unanswered. -/
theorem second_decode_posted_while_first_unanswered :
    Option.map Scanner.unanswered
      (run (constructor 640 480 true false none 300)
        [Event.videoPlayback false false, Event.play, Event.setActive false,
         Event.videoPlayback false false, Event.play]) = some 2 := by
  decide

/-- C1, amended: in every state reached from construction by a sequence of events in
which each 'play' event that finds the video playing finds the scan loop stopped (no
'decode' message unanswered, no resample scheduled), at most one 'decode' message is
unanswered, and none is unanswered while a resample is scheduled. -/
theorem at_most_one_unanswered_decode (videoWidth videoHeight : Nat) (paused ended : Bool)
    (srcObject : Option Stream) (canvasWidth : Nat) (evs : List Event) (s : Scanner)
    (hq : playsWhenStopped
      (constructor videoWidth videoHeight paused ended srcObject canvasWidth) evs = true)
    (hr : run (constructor videoWidth videoHeight paused ended srcObject canvasWidth) evs
      = some s) :
    s.unanswered ≤ 1 ∧ s.unanswered + s.rafPending ≤ 1 := by
  have h := run_loop evs _ s hr hq (by simp [constructor])
  exact ⟨by omega, h⟩

/-- A run of two round trips, a pause and a restart to which C1 (amended) applies. -/
theorem at_most_one_unanswered_decode_witness :
    playsWhenStopped (constructor 640 480 true false none 300)
      [Event.videoPlayback false false, Event.play, Event.message "qrResult" Data.null,
       Event.animationFrame, Event.setActive false,
       Event.message "qrResult" (Data.value "payload"), Event.animationFrame,
       Event.videoPlayback false false, Event.play] = true ∧
    ((run (constructor 640 480 true false none 300)
      [Event.videoPlayback false false, Event.play, Event.message "qrResult" Data.null,
       Event.animationFrame, Event.setActive false,
       Event.message "qrResult" (Data.value "payload"), Event.animationFrame,
       Event.videoPlayback false false, Event.play]).getD
        (constructor 640 480 true false none 300)).unanswered ≤ 1 :=
  ⟨by decide,
   (at_most_one_unanswered_decode 640 480 true false none 300
      [Event.videoPlayback false false, Event.play, Event.message "qrResult" Data.null,
       Event.animationFrame, Event.setActive false,
       Event.message "qrResult" (Data.value "payload"), Event.animationFrame,
       Event.videoPlayback false false, Event.play] _ (by decide) (by rfl)).1⟩

/-- C2: `_updateSourceRect` sets the crop size to `2 / 3 × min (w, h)` rounded to the
nearest integer, and a `_scanFrame` that samples asks `drawImage` for the square of
the current crop size whose corner is `((w − size) / 2, (h − size) / 2)`, which
leaves equal margins on the left and right and on the top and bottom. -/
theorem crop_geometry (s : Scanner) (hp : s.paused = false) (he : s.ended = false) :
    (_updateSourceRect s).sourceRectSize
        = round ((2 : ℚ) / 3 * ((min s.videoWidth s.videoHeight : ℕ) : ℚ)) ∧
    ∃ x0 y0 : ℚ,
      (_scanFrame s).log = s.log ++
        [Effect.drawImage x0 y0 s.sourceRectSize s.sourceRectSize 0 0 s.canvasSize s.canvasSize,
         Effect.getImageData 0 0 s.canvasSize s.canvasSize,
         Effect.postMessage "decode"] ∧
      x0 = ((s.videoWidth : ℚ) - s.sourceRectSize) / 2 ∧
      y0 = ((s.videoHeight : ℚ) - s.sourceRectSize) / 2 ∧
      (s.videoWidth : ℚ) - (x0 + s.sourceRectSize) = x0 ∧
      (s.videoHeight : ℚ) - (y0 + s.sourceRectSize) = y0 := by
  refine ⟨?_, _, _, ?_, rfl, rfl, ?_, ?_⟩
  · simp [_updateSourceRect, mathRound_eq_round]
  · simp [_scanFrame, hp, he]
  · ring
  · ring

/-- C2 at a playing 640 × 480 video. -/
theorem crop_geometry_witness :
    (constructor 640 480 false false none 300).paused = false ∧
    (constructor 640 480 false false none 300).ended = false ∧
    (_updateSourceRect (constructor 640 480 false false none 300)).sourceRectSize
        = round ((2 : ℚ) / 3 * ((min 640 480 : ℕ) : ℚ)) :=
  ⟨rfl, rfl, (crop_geometry (constructor 640 480 false false none 300) rfl rfl).1⟩

/-- C3: handling a 'qrResult' message schedules exactly one resample and calls
`onDecode` once with the payload when the payload is not `null`, and not at all when
it is `null`. -/
theorem result_handling (s : Scanner) (data : Data) :
    (_handleWorkerMessage s "qrResult" data).rafPending = s.rafPending + 1 ∧
    (_handleWorkerMessage s "qrResult" data).log
      = s.log ++ Effect.requestAnimationFrame ::
          (if data = Data.null then [] else [Effect.onDecode data]) := by
  unfold _handleWorkerMessage
  by_cases h : data = Data.null <;> simp [h]

/-! ## The crop -/

theorem mathRound_two_thirds_le (n : ℕ) : mathRound (2 / 3 * (n : ℚ)) ≤ (n : ℤ) := by
  unfold mathRound
  have h : (2 / 3 * (n : ℚ) + 1 / 2) < ((n : ℤ) : ℚ) + 1 := by
    have : (0 : ℚ) ≤ (n : ℚ) := Nat.cast_nonneg n
    push_cast
    linarith
  have := Int.floor_lt.mpr (show (2 / 3 * (n : ℚ) + 1 / 2) < (((n : ℤ) + 1 : ℤ) : ℚ) by
    push_cast; push_cast at h; exact h)
  omega

theorem mathRound_two_thirds_nonneg (n : ℕ) : 0 ≤ mathRound (2 / 3 * (n : ℚ)) := by
  unfold mathRound
  apply Int.floor_nonneg.mpr
  have : (0 : ℚ) ≤ (n : ℚ) := Nat.cast_nonneg n
  linarith

theorem step_cropUpToDate (s s' : Scanner) (e : Event) (hs : step s e = some s')
    (he : ∀ w h, e ≠ Event.videoResized w h) (hinv : cropUpToDate s) : cropUpToDate s' := by
  unfold cropUpToDate at *
  cases e with
  | resize => simp [step, _updateSourceRect] at hs; subst hs; simp
  | canplay => simp [step, _updateSourceRect] at hs; subst hs; simp
  | play =>
    simp only [step, Option.some.injEq] at hs
    subst hs
    unfold _scanFrame
    split <;> simpa using hinv
  | message type data =>
    simp only [step, workerAnswers] at hs
    by_cases ht : type = "qrResult"
    · subst ht
      by_cases hu : s.unanswered = 0
      · simp [hu] at hs
      · simp [hu] at hs
        subst hs
        unfold _handleWorkerMessage
        by_cases hd : data = Data.null <;> simpa [hd] using hinv
    · simp [ht, _handleWorkerMessage] at hs
      subst hs
      exact hinv
  | animationFrame =>
    simp only [step] at hs
    by_cases hr : s.rafPending = 0
    · simp [hr] at hs
    · simp [hr] at hs
      subst hs
      unfold _scanFrame
      split <;> simpa using hinv
  | setActive active =>
    simp only [step, Option.some.injEq] at hs
    subst hs
    cases active <;>
      simp [set_active, _cameraOn, _cameraOff, setTimeout, clearTimeout] <;>
      (try split) <;> simpa using hinv
  | elapse ms =>
    simp only [step, Option.some.injEq] at hs
    subst hs
    rw [elapse_eq]
    simpa using hinv
  | streamOpened i stream =>
    simp only [step] at hs
    split at hs
    · simp at hs
    · simp only [Option.some.injEq] at hs
      subst hs
      simpa [_cameraOn_then] using hinv
  | streamFailed i =>
    simp only [step] at hs
    split at hs
    · simp at hs
    · simp only [Option.some.injEq] at hs
      subst hs
      unfold _cameraOn_catch
      split
      · simp only [_cameraOn, clearTimeout]
        split <;> simpa using hinv
      · simpa using hinv
  | setGrayscaleWeights r g b =>
    simp [step, setGrayscaleWeights] at hs; subst hs; simpa using hinv
  | videoResized w h => exact absurd rfl (he w h)
  | videoPlayback p en => simp [step] at hs; subst hs; simpa using hinv

theorem run_cropUpToDate (evs : List Event) (s s' : Scanner) (hr : run s evs = some s')
    (he : ∀ w h, Event.videoResized w h ∉ evs) (hinv : cropUpToDate s) : cropUpToDate s' := by
  induction evs generalizing s with
  | nil =>
    simp only [run, Option.some.injEq] at hr
    subst hr
    exact hinv
  | cons e es ih =>
    simp only [run] at hr
    cases hstep : step s e with
    | none => simp [hstep] at hr
    | some s1 =>
      simp only [hstep, Option.some_bind] at hr
      refine ih s1 hr (fun w h hm => he w h (List.mem_cons_of_mem _ hm))
        (step_cropUpToDate s s1 e hstep
          (fun w h heq => he w h (heq ▸ List.mem_cons_self _ _)) hinv)

/-- C9, as stated, fails: the crop size is computed on 'canplay' for a 1920 × 1080
source; the source then changes to 640 × 480 (the class does not listen for that) and
the next sample asks for a square of 720 pixels from a source 480 pixels high, with
both corner coordinates negative. -/
theorem stale_crop_exceeds_source :
    Option.map Scanner.log
      (run (constructor 0 0 true false none 300)
        [Event.videoResized 1920 1080, Event.canplay, Event.videoResized 640 480,
         Event.videoPlayback false false, Event.play])
      = some [Effect.drawImage (-40) (-120) 720 720 0 0 300 300,
              Effect.getImageData 0 0 300 300, Effect.postMessage "decode"] ∧
    ¬ ((720 : ℤ) ≤ ((min 640 480 : ℕ) : ℤ)) := by
  have h : mathRound 720 = 720 := by
    unfold mathRound
    rw [Int.floor_eq_iff]
    norm_num
  refine ⟨?_, by decide⟩
  simp [run, step, _updateSourceRect, _scanFrame, constructor]
  norm_num [h]

/-- C9, amended: once a 'resize' or 'canplay' event has run `_updateSourceRect` and as
long as the dimensions of the source have not changed since, a `_scanFrame` that
samples uses a crop size between 0 and `min (w, h)`, and both corner coordinates of
the crop are non-negative. -/
theorem crop_within_source_after_update (s s' : Scanner) (e : Event) (evs : List Event)
    (he : e = Event.resize ∨ e = Event.canplay)
    (hd : ∀ w h, Event.videoResized w h ∉ evs)
    (hr : run s (e :: evs) = some s')
    (hp : s'.paused = false) (hen : s'.ended = false) :
    (_scanFrame s').log = s'.log ++
      [Effect.drawImage (((s'.videoWidth : ℚ) - (s'.sourceRectSize : ℚ)) / 2)
         (((s'.videoHeight : ℚ) - (s'.sourceRectSize : ℚ)) / 2)
         s'.sourceRectSize s'.sourceRectSize 0 0 s'.canvasSize s'.canvasSize,
       Effect.getImageData 0 0 s'.canvasSize s'.canvasSize,
       Effect.postMessage "decode"] ∧
    0 ≤ s'.sourceRectSize ∧
    s'.sourceRectSize ≤ ((min s'.videoWidth s'.videoHeight : ℕ) : ℤ) ∧
    0 ≤ ((s'.videoWidth : ℚ) - (s'.sourceRectSize : ℚ)) / 2 ∧
    0 ≤ ((s'.videoHeight : ℚ) - (s'.sourceRectSize : ℚ)) / 2 := by
  have hup : cropUpToDate s' := by
    simp only [run] at hr
    cases hstep : step s e with
    | none => simp [hstep] at hr
    | some s1 =>
      simp only [hstep, Option.some_bind] at hr
      refine run_cropUpToDate evs s1 s' hr hd ?_
      rcases he with he | he <;> subst he <;>
        simp [step, _updateSourceRect] at hstep <;> subst hstep <;> simp [cropUpToDate]
  have hle := mathRound_two_thirds_le (min s'.videoWidth s'.videoHeight)
  have hnn := mathRound_two_thirds_nonneg (min s'.videoWidth s'.videoHeight)
  rw [← hup] at hle hnn
  have hw : s'.sourceRectSize ≤ (s'.videoWidth : ℤ) := by omega
  have hh : s'.sourceRectSize ≤ (s'.videoHeight : ℤ) := by omega
  refine ⟨?_, hnn, hle, ?_, ?_⟩
  · simp [_scanFrame, hp, hen]
  · have : (s'.sourceRectSize : ℚ) ≤ (s'.videoWidth : ℚ) := by exact_mod_cast hw
    linarith
  · have : (s'.sourceRectSize : ℚ) ≤ (s'.videoHeight : ℚ) := by exact_mod_cast hh
    linarith

/-- C9 (amended) at a playing 640 × 480 video after 'canplay' and one sample. -/
theorem crop_within_source_after_update_witness :
    ((run (constructor 640 480 false false none 300)
        [Event.canplay, Event.play]).getD (constructor 640 480 false false none 300)).sourceRectSize
      ≤ ((min
        ((run (constructor 640 480 false false none 300)
          [Event.canplay, Event.play]).getD (constructor 640 480 false false none 300)).videoWidth
        ((run (constructor 640 480 false false none 300)
          [Event.canplay, Event.play]).getD (constructor 640 480 false false none 300)).videoHeight
        : ℕ) : ℤ) :=
  (crop_within_source_after_update (constructor 640 480 false false none 300) _ Event.canplay
    [Event.play] (Or.inr rfl) (by simp) (by rfl) (by rfl) (by rfl)).2.2.1



/-! ## The camera -/

theorem run_append (a b : List Event) (s : Scanner) :
    run s (a ++ b) = (run s a).bind (fun s => run s b) := by
  induction a generalizing s with
  | nil => simp [run]
  | cons e es ih =>
    simp only [List.cons_append, run]
    cases step s e with
    | none => simp
    | some s1 => simp [ih]

theorem step_no_timer (s s' : Scanner) (e : Event) (hs : step s e = some s')
    (he : e ≠ Event.setActive false) (ht : s.timers = []) :
    s'.timers = [] ∧ teardowns s' = teardowns s := by
  cases e with
  | resize => simp [step, _updateSourceRect] at hs; subst hs; simpa [teardowns] using ht
  | canplay => simp [step, _updateSourceRect] at hs; subst hs; simpa [teardowns] using ht
  | play =>
    simp only [step, Option.some.injEq] at hs
    subst hs
    unfold _scanFrame
    split <;> simpa [teardowns] using ht
  | message type data =>
    simp only [step, workerAnswers] at hs
    by_cases htype : type = "qrResult"
    · subst htype
      by_cases hu : s.unanswered = 0
      · simp [hu] at hs
      · simp [hu] at hs
        subst hs
        unfold _handleWorkerMessage
        by_cases hd : data = Data.null <;> simpa [hd, teardowns] using ht
    · simp [htype, _handleWorkerMessage] at hs
      subst hs
      exact ⟨ht, rfl⟩
  | animationFrame =>
    simp only [step] at hs
    by_cases hr : s.rafPending = 0
    · simp [hr] at hs
    · simp [hr] at hs
      subst hs
      unfold _scanFrame
      split <;> simpa [teardowns] using ht
  | setActive active =>
    cases active with
    | false => exact absurd rfl he
    | true =>
      simp only [step, Option.some.injEq] at hs
      subst hs
      simp only [set_active, _cameraOn, clearTimeout, if_true]
      split <;> simp [teardowns, ht]
  | elapse ms =>
    simp only [step, Option.some.injEq] at hs
    subst hs
    rw [elapse_eq]
    simp [teardowns, ht]
  | streamOpened i stream =>
    simp only [step] at hs
    split at hs
    · simp at hs
    · simp only [Option.some.injEq] at hs
      subst hs
      simpa [_cameraOn_then, teardowns] using ht
  | streamFailed i =>
    simp only [step] at hs
    split at hs
    · simp at hs
    · simp only [Option.some.injEq] at hs
      subst hs
      unfold _cameraOn_catch
      split
      · simp only [_cameraOn, clearTimeout]
        split <;> simp [teardowns, ht]
      · simpa [teardowns] using ht
  | setGrayscaleWeights r g b =>
    simp [step, setGrayscaleWeights] at hs; subst hs; simpa [teardowns] using ht
  | videoResized w h => simp [step] at hs; subst hs; simpa [teardowns] using ht
  | videoPlayback p en => simp [step] at hs; subst hs; simpa [teardowns] using ht

theorem run_no_timer (evs : List Event) (s s' : Scanner) (hr : run s evs = some s')
    (he : Event.setActive false ∉ evs) (ht : s.timers = []) :
    s'.timers = [] ∧ teardowns s' = teardowns s := by
  induction evs generalizing s with
  | nil =>
    simp only [run, Option.some.injEq] at hr
    subst hr
    exact ⟨ht, rfl⟩
  | cons e es ih =>
    simp only [run] at hr
    cases hstep : step s e with
    | none => simp [hstep] at hr
    | some s1 =>
      simp only [hstep, Option.some_bind] at hr
      have h1 := step_no_timer s s1 e hstep
        (fun heq => he (heq ▸ List.mem_cons_self _ _)) ht
      have h2 := ih s1 hr (fun hm => he (List.mem_cons_of_mem _ hm)) h1.1
      exact ⟨h2.1, h2.2.trans h1.2⟩

/-- C4 fails on the code, in two ways.  First: after on, stream 1 opened, off, 500 ms,
on, the camera is active with the one session of stream 1 bound, no timer pending and
the capture request of the second activation in flight; `active = false` alone then
schedules the teardown, the request in flight is rejected, the retry of `_cameraOn`
clears the timer, and 3000 ms later no track has been stopped.  Second: after on,
stream 1 opened, off, off, on, the camera is active with stream 1 bound; `active =
false` followed 1000 ms later by `active = true` cancels its own timer, but the timer
of the first `active = false` fires 2000 ms later and stops the track. -/
theorem teardown_cancelled_by_retry_or_run_by_earlier_timer :
    Option.map (fun s => (s.srcObject, s.timers, s.gumPending.length))
      (run (constructor 640 480 true false none 300)
        [Event.setActive true, Event.streamOpened 0 1, Event.setActive false,
         Event.elapse 500, Event.setActive true])
      = some (some 1, [], 1) ∧
    Option.map teardowns
      (run (constructor 640 480 true false none 300)
        [Event.setActive true, Event.streamOpened 0 1, Event.setActive false,
         Event.elapse 500, Event.setActive true,
         Event.setActive false, Event.streamFailed 0, Event.elapse 3000])
      = some [] ∧
    Option.map teardowns
      (run (constructor 640 480 true false none 300)
        [Event.setActive true, Event.streamOpened 0 1, Event.setActive false,
         Event.setActive false, Event.setActive true,
         Event.setActive false, Event.elapse 1000, Event.setActive true,
         Event.elapse 2000])
      = some [Effect.trackStop 1] := by
  decide

/-- C10 fails on the code: `_cameraOff` overwrites `_offTimeout` without clearing the
timer it names, so after `active = false` twice and `active = true` the first timer
is still pending, and 3000 ms later it stops the track of the re-activated camera. -/
theorem earlier_teardown_timer_survives_activation :
    Option.map (fun s => (s.timers, teardowns s))
      (run (constructor 640 480 false false (some 1) 300)
        [Event.setActive false, Event.setActive false, Event.setActive true])
      = some ([{ id := 1, deadline := 3000 }], []) ∧
    Option.map teardowns
      (run (constructor 640 480 false false (some 1) 300)
        [Event.setActive false, Event.setActive false, Event.setActive true,
         Event.elapse 3000])
      = some [Effect.trackStop 1] := by
  decide



/-! ## Opening a capture session -/

theorem step_no_request (s s' : Scanner) (e : Event) (hs : step s e = some s')
    (he : e ≠ Event.setActive true) (hg : s.gumPending = []) :
    s'.gumPending = [] ∧ captureRequests s' = captureRequests s ∧
      s'.srcObject = s.srcObject := by
  cases e with
  | resize => simp [step, _updateSourceRect] at hs; subst hs; simpa [captureRequests] using hg
  | canplay => simp [step, _updateSourceRect] at hs; subst hs; simpa [captureRequests] using hg
  | play =>
    simp only [step, Option.some.injEq] at hs
    subst hs
    unfold _scanFrame
    split <;> simpa [captureRequests] using hg
  | message type data =>
    simp only [step, workerAnswers] at hs
    by_cases htype : type = "qrResult"
    · subst htype
      by_cases hu : s.unanswered = 0
      · simp [hu] at hs
      · simp [hu] at hs
        subst hs
        unfold _handleWorkerMessage
        by_cases hd : data = Data.null <;> simpa [hd, captureRequests] using hg
    · simp [htype, _handleWorkerMessage] at hs
      subst hs
      exact ⟨hg, rfl, rfl⟩
  | animationFrame =>
    simp only [step] at hs
    by_cases hr : s.rafPending = 0
    · simp [hr] at hs
    · simp [hr] at hs
      subst hs
      unfold _scanFrame
      split <;> simpa [captureRequests] using hg
  | setActive active =>
    cases active with
    | true => exact absurd rfl he
    | false =>
      simp only [step, Option.some.injEq] at hs
      subst hs
      simpa [set_active, _cameraOff, setTimeout, captureRequests] using hg
  | elapse ms =>
    simp only [step, Option.some.injEq] at hs
    subst hs
    rw [elapse_eq]
    refine ⟨by simpa using hg, ?_, rfl⟩
    simp only [captureRequests, List.filter_append, List.append_right_eq_self,
      List.filter_eq_nil_iff, List.mem_replicate]
    rintro a ⟨-, rfl⟩
    unfold teardownEffect
    cases s.srcObject <;> simp
  | streamOpened i stream =>
    simp [step, hg] at hs
  | streamFailed i =>
    simp [step, hg] at hs
  | setGrayscaleWeights r g b =>
    simp [step, setGrayscaleWeights] at hs; subst hs; simpa [captureRequests] using hg
  | videoResized w h => simp [step] at hs; subst hs; simpa [captureRequests] using hg
  | videoPlayback p en => simp [step] at hs; subst hs; simpa [captureRequests] using hg

theorem run_no_request (evs : List Event) (s s' : Scanner) (hr : run s evs = some s')
    (he : Event.setActive true ∉ evs) (hg : s.gumPending = []) :
    s'.gumPending = [] ∧ captureRequests s' = captureRequests s ∧
      s'.srcObject = s.srcObject := by
  induction evs generalizing s with
  | nil =>
    simp only [run, Option.some.injEq] at hr
    subst hr
    exact ⟨hg, rfl, rfl⟩
  | cons e es ih =>
    simp only [run] at hr
    cases hstep : step s e with
    | none => simp [hstep] at hr
    | some s1 =>
      simp only [hstep, Option.some_bind] at hr
      have h1 := step_no_request s s1 e hstep
        (fun heq => he (heq ▸ List.mem_cons_self _ _)) hg
      have h2 := ih s1 hr (fun hm => he (List.mem_cons_of_mem _ hm)) h1.1
      exact ⟨h2.1, h2.2.1.trans h1.2.1, h2.2.2.trans h1.2.2⟩

theorem _cameraOn_log (s : Scanner) (settingsToTry : Option (List Constraint)) :
    (_cameraOn s settingsToTry).log
      = s.log ++ [Effect.getUserMedia (settingsToTry.getD defaultSettings).head?] := by
  simp only [_cameraOn, clearTimeout]
  split <;> rfl

theorem _cameraOn_gumPending (s : Scanner) (settingsToTry : Option (List Constraint)) :
    (_cameraOn s settingsToTry).gumPending
      = s.gumPending ++ [(settingsToTry.getD defaultSettings).tail] := by
  simp only [_cameraOn, clearTimeout]
  split <;> rfl

theorem _cameraOn_srcObject (s : Scanner) (settingsToTry : Option (List Constraint)) :
    (_cameraOn s settingsToTry).srcObject = s.srcObject := by
  simp only [_cameraOn, clearTimeout]
  split <;> rfl

/-- After `j` failures in a row the request in flight is the one for candidate `j`
of the list the first `catch` handler holds. -/
theorem run_failures (j : Nat) (s : Scanner) (rest : List Constraint)
    (hg : s.gumPending = [rest]) (hj : j ≤ rest.length) :
    ∃ sj, run s (List.replicate j (Event.streamFailed 0)) = some sj ∧
      sj.gumPending = [rest.drop j] ∧
      sj.log = s.log ++ (rest.take j).map (fun c => Effect.getUserMedia (some c)) ∧
      sj.srcObject = s.srcObject := by
  induction j generalizing s rest with
  | zero => exact ⟨s, by simp [run, hg]⟩
  | succ j ih =>
    cases rest with
    | nil => simp at hj
    | cons c rest =>
      simp only [List.length_cons, Nat.add_le_add_iff_right] at hj
      have hstep : step s (Event.streamFailed 0)
          = some (_cameraOn { s with gumPending := [] } (some (c :: rest))) := by
        simp [step, hg, _cameraOn_catch]
      obtain ⟨sj, hrun, h1, h2, h3⟩ :=
        ih (_cameraOn { s with gumPending := [] } (some (c :: rest)))
        rest (by simp [_cameraOn, clearTimeout]; split <;> simp) hj
      refine ⟨sj, ?_, ?_, ?_, ?_⟩
      · simp [List.replicate_succ, run, hstep, hrun]
      · simpa using h1
      · rw [h2]
        simp [_cameraOn, clearTimeout]
        split <;> simp
      · rw [h3]
        simp [_cameraOn, clearTimeout]
        split <;> simp

/-- C5: `_cameraOn` with a list of candidates (for `active = true`: the three default
candidates) of which the first `k` fail and candidate `k + 1` succeeds.  After `j ≤ k`
failures exactly candidates `1 .. j + 1` have been requested, in list order; after
the success the log holds the requests for candidates `1 .. k + 1` followed by the
one binding of the delivered stream, no request is in flight, and whatever happens
later short of a new `active = true`, no further candidate is requested and the
stream stays bound. -/
theorem capability_fallback (s : Scanner) (settingsToTry : Option (List Constraint))
    (k : Nat) (stream : Stream) (hg : s.gumPending = [])
    (hk : k < (settingsToTry.getD defaultSettings).length) :
    (∀ j, j ≤ k →
      Option.map Scanner.log
          (run (_cameraOn s settingsToTry) (List.replicate j (Event.streamFailed 0)))
        = some (s.log ++ ((settingsToTry.getD defaultSettings).take (j + 1)).map
            (fun c => Effect.getUserMedia (some c)))) ∧
    Option.map (fun s' => (s'.log, s'.srcObject, s'.gumPending))
        (run (_cameraOn s settingsToTry)
          (List.replicate k (Event.streamFailed 0) ++ [Event.streamOpened 0 stream]))
      = some (s.log ++ ((settingsToTry.getD defaultSettings).take (k + 1)).map
            (fun c => Effect.getUserMedia (some c)) ++ [Effect.setSrcObject stream],
          some stream, []) ∧
    ∀ (later : List Event) (s2 : Scanner), Event.setActive true ∉ later →
      run (_cameraOn s settingsToTry)
        (List.replicate k (Event.streamFailed 0) ++ Event.streamOpened 0 stream :: later)
        = some s2 →
      s2.gumPending = [] ∧ s2.srcObject = some stream ∧
      captureRequests s2 = captureRequests s ++
        ((settingsToTry.getD defaultSettings).take (k + 1)).map
          (fun c => Effect.getUserMedia (some c)) := by
  generalize hcs : settingsToTry.getD defaultSettings = cs at hk
  cases cs with
  | nil => simp at hk
  | cons c rest =>
    simp only [List.length_cons, Nat.lt_succ_iff] at hk
    have hon_g : (_cameraOn s settingsToTry).gumPending = [rest] := by
      simp only [_cameraOn, clearTimeout, hcs]
      split <;> simp [hg]
    have hon_l : (_cameraOn s settingsToTry).log = s.log ++ [Effect.getUserMedia (some c)] := by
      simp only [_cameraOn, clearTimeout, hcs]
      split <;> simp
    have hfail : ∀ j, j ≤ k → ∃ sj,
        run (_cameraOn s settingsToTry) (List.replicate j (Event.streamFailed 0)) = some sj ∧
        sj.gumPending = [rest.drop j] ∧
        sj.log = s.log ++
          ((c :: rest).take (j + 1)).map (fun c => Effect.getUserMedia (some c)) := by
      intro j hj
      obtain ⟨sj, h1, h2, h3, -⟩ := run_failures j (_cameraOn s settingsToTry) rest hon_g
        (le_trans hj hk)
      exact ⟨sj, h1, h2, by rw [h3, hon_l]; simp⟩
    obtain ⟨sk, hk1, hk2, hk3⟩ := hfail k le_rfl
    have hopen : step sk (Event.streamOpened 0 stream)
        = some (_cameraOn_then { sk with gumPending := [] } stream) := by
      simp [step, hk2]
    refine ⟨?_, ?_, ?_⟩
    · intro j hj
      obtain ⟨sj, h1, -, h3⟩ := hfail j hj
      rw [h1, Option.map_some', h3]
    · rw [run_append, hk1]
      simp [run, hopen, _cameraOn_then, hk3]
    · intro later s2 hl hr
      rw [run_append, hk1] at hr
      simp only [Option.some_bind, run, hopen] at hr
      obtain ⟨h1, h2, h3⟩ := run_no_request later _ s2 hr hl (by simp [_cameraOn_then])
      refine ⟨h1, by rw [h3]; simp [_cameraOn_then], ?_⟩
      rw [h2]
      simp [captureRequests, _cameraOn_then, hk3, List.filter_append]
      intro a ha
      obtain ⟨c', -, rfl⟩ := List.mem_map.mp (List.mem_of_mem_take ha)
      rfl

/-- C5 for `active = true` on a fresh instance when only the third default candidate
succeeds, with stream 7. -/
theorem capability_fallback_witness :
    Option.map (fun s' => (s'.log, s'.srcObject, s'.gumPending))
        (run (set_active (constructor 0 0 true false none 300) true)
          [Event.streamFailed 0, Event.streamFailed 0, Event.streamOpened 0 7])
      = some ([Effect.getUserMedia (some { facingMode := "environment", minWidth := some 1024 }),
               Effect.getUserMedia (some { facingMode := "environment", minWidth := some 768 }),
               Effect.getUserMedia (some { facingMode := "environment", minWidth := none }),
               Effect.setSrcObject 7],
              some 7, []) :=
  (capability_fallback (constructor 0 0 true false none 300) none 2 7 rfl (by decide)).2.1

/-- C6, as stated, fails: the second `active = true` issues a second capture request
although the session of the first is open, and when that request succeeds the video
is bound to the new stream 2, not to stream 1 opened by the first call. -/
theorem second_activation_requests_capture_again :
    Option.map captureRequests
        (run (constructor 0 0 true false none 300)
          [Event.setActive true, Event.streamOpened 0 1, Event.setActive true])
      = some [Effect.getUserMedia (some { facingMode := "environment", minWidth := some 1024 }),
              Effect.getUserMedia (some { facingMode := "environment", minWidth := some 1024 })] ∧
    Option.map Scanner.srcObject
        (run (constructor 0 0 true false none 300)
          [Event.setActive true, Event.streamOpened 0 1, Event.setActive true,
           Event.streamOpened 0 2])
      = some (some 2) := by
  decide

/-- C6, amended: every `active = true` issues one capture request for the first
default candidate, whatever the state; after two calls in a row, the first of which
opened the session `first`, two requests have been issued and `first` is still bound,
and once the second request succeeds the video is bound to its stream `second`. -/
theorem activation_requests_capture_every_time (s : Scanner) (first second : Stream)
    (hg : s.gumPending = []) :
    (set_active s true).log = s.log ++
      [Effect.getUserMedia (some { facingMode := "environment", minWidth := some 1024 })] ∧
    Option.map (fun s' => (captureRequests s', s'.srcObject))
        (run s [Event.setActive true, Event.streamOpened 0 first, Event.setActive true])
      = some (captureRequests s ++
          [Effect.getUserMedia (some { facingMode := "environment", minWidth := some 1024 }),
           Effect.getUserMedia (some { facingMode := "environment", minWidth := some 1024 })],
          some first) ∧
    Option.map Scanner.srcObject
        (run s [Event.setActive true, Event.streamOpened 0 first, Event.setActive true,
          Event.streamOpened 0 second])
      = some (some second) := by
  refine ⟨?_, ?_, ?_⟩
  · simp [set_active, _cameraOn_log, defaultSettings]
  · simp [run, step, set_active, _cameraOn_log, _cameraOn_gumPending, _cameraOn_srcObject,
      hg, _cameraOn_then, captureRequests, defaultSettings]
  · simp [run, step, set_active, _cameraOn_log, _cameraOn_gumPending, _cameraOn_srcObject,
      hg, _cameraOn_then, defaultSettings]

/-- C6 (amended) on a fresh instance with streams 1 and 2. -/
theorem activation_requests_capture_every_time_witness :
    Option.map Scanner.srcObject
        (run (constructor 0 0 true false none 300)
          [Event.setActive true, Event.streamOpened 0 1, Event.setActive true,
           Event.streamOpened 0 2])
      = some (some 2) :=
  (activation_requests_capture_every_time (constructor 0 0 true false none 300) 1 2 rfl).2.2



/-! ## The one-shot decode -/

theorem scanImage_realized (input : ImageSource) (b : ImageLoad) (r : Readback)
    (d : ImageData) (hin : input.realized = true) (hread : _getImageData input r = Except.ok d) :
    scanImage input b r
      = { now := 0, timeout := some 3000, promise := none, posted := 1, loading := none } := by
  cases input <;> simp [ImageSource.realized] at hin <;>
    simp [scanImage, _loadImage, OneShot.loaded, hread]

theorem OneShot.loaded_settled (s : OneShot) (load : Promise ImageSource) (r : Readback)
    (out : Settled) (h : s.promise = some out) : (s.loaded load r).promise = some out := by
  unfold OneShot.loaded
  split
  · split
    · exact h
    · simp [OneShot.reject, h]
  · simp [OneShot.reject, h]
  · exact h

theorem OneShot.step_settled (s : OneShot) (e : OneShotEvent) (out : Settled)
    (h : s.promise = some out) : (s.step e).promise = some out := by
  cases e with
  | message type data =>
    simp only [OneShot.step, OneShot.onmessage]
    by_cases ht : type = "qrResult"
    · by_cases hd : data = Data.null <;> simp [ht, hd, OneShot.resolve, OneShot.reject, h]
    · simp [ht, h]
  | error message => simp [OneShot.step, OneShot.reject, h]
  | imageSettled =>
    simp only [OneShot.step]
    split
    · exact h
    · exact OneShot.loaded_settled _ _ _ out (by simpa using h)
  | elapse ms =>
    simp only [OneShot.step]
    split
    · exact h
    · split
      · simp [OneShot.reject, h]
      · exact h

theorem OneShot.run_settled (later : List OneShotEvent) (s : OneShot) (out : Settled)
    (h : s.promise = some out) : (s.run later).promise = some out := by
  induction later generalizing s with
  | nil => exact h
  | cons e es ih => exact ih (s.step e) (OneShot.step_settled s e out h)

theorem OneShot.run_cons (s : OneShot) (e : OneShotEvent) (es : List OneShotEvent) :
    s.run (e :: es) = (s.step e).run es := rfl

theorem OneShot.run_split (s : OneShot) (a b : List OneShotEvent) :
    s.run (a ++ b) = (s.run a).run b := by
  simp [OneShot.run]

theorem OneShot.run_before_deadline (pre : List OneShotEvent) (s : OneShot) (deadline : Nat)
    (ht : s.timeout = some deadline) (hp : s.promise = none) (hl : s.loading = none)
    (hq : noResult pre = true) (hd : s.now + elapsed pre < deadline) :
    s.run pre = { s with now := s.now + elapsed pre } := by
  induction pre generalizing s with
  | nil => simp [OneShot.run, elapsed]
  | cons e es ih =>
    rw [OneShot.run_cons]
    cases e with
    | message type data =>
      simp only [noResult, Bool.and_eq_true, bne_iff_ne, ne_eq] at hq
      have hs : s.step (OneShotEvent.message type data) = s := by
        simp [OneShot.step, OneShot.onmessage, hq.1]
      rw [hs, ih s ht hp hl hq.2 (by simpa [elapsed] using hd)]
      simp [elapsed]
    | error message => simp [noResult] at hq
    | imageSettled =>
      simp only [noResult] at hq
      have hs : s.step OneShotEvent.imageSettled = s := by
        simp [OneShot.step, hl]
      rw [hs, ih s ht hp hl hq (by simpa [elapsed] using hd)]
      simp [elapsed]
    | elapse ms =>
      simp only [noResult] at hq
      simp only [elapsed] at hd
      have hs : s.step (OneShotEvent.elapse ms) = { s with now := s.now + ms } := by
        have hlt : ¬ deadline ≤ s.now + ms := by omega
        simp [OneShot.step, ht, hlt]
      rw [hs, ih _ (by simpa using ht) (by simpa using hp) (by simpa using hl) hq
        (by simp; omega)]
      simp [elapsed, Nat.add_assoc]

theorem OneShot.run_past_deadline (pre : List OneShotEvent) (s : OneShot) (deadline : Nat)
    (ht : s.timeout = some deadline) (hp : s.promise = none) (hl : s.loading = none)
    (hq : noResult pre = true) (hnow : s.now < deadline) (hd : deadline ≤ s.now + elapsed pre) :
    (s.run pre).promise = some (Settled.rejected Reason.undefined) := by
  induction pre generalizing s with
  | nil => simp [elapsed] at hd; omega
  | cons e es ih =>
    rw [OneShot.run_cons]
    cases e with
    | message type data =>
      simp only [noResult, Bool.and_eq_true, bne_iff_ne, ne_eq] at hq
      have hs : s.step (OneShotEvent.message type data) = s := by
        simp [OneShot.step, OneShot.onmessage, hq.1]
      rw [hs]
      exact ih s ht hp hl hq.2 hnow (by simpa [elapsed] using hd)
    | error message => simp [noResult] at hq
    | imageSettled =>
      simp only [noResult] at hq
      have hs : s.step OneShotEvent.imageSettled = s := by
        simp [OneShot.step, hl]
      rw [hs]
      exact ih s ht hp hl hq hnow (by simpa [elapsed] using hd)
    | elapse ms =>
      simp only [noResult] at hq
      simp only [elapsed] at hd
      by_cases hdue : deadline ≤ s.now + ms
      · apply OneShot.run_settled
        simp [OneShot.step, ht, hdue, OneShot.reject, hp]
      · have hs : s.step (OneShotEvent.elapse ms) = { s with now := s.now + ms } := by
          simp [OneShot.step, ht, hdue]
        rw [hs]
        exact ih _ (by simpa using ht) (by simpa using hp) (by simpa using hl) hq
          (by simp; omega) (by simp; omega)

/-- C7, as stated, fails in three ways.  The rejection after a timeout cannot be told
from the rejection after a result without payload: both call `reject` without an
argument.  For a realized canvas of size 0 × 0 `_getImageData` throws, nothing is
posted and the promise is rejected at once with `InvalidStateError`, not with a
timeout after 3000 ms.  And when the worker fires 'error' before its result, the
promise is rejected with the error event although a result with a payload arrives
before the timeout. -/
theorem timeout_rejects_like_not_found :
    (((scanImage (ImageSource.canvas 100 100)
        { complete := true, naturalWidth := 100, signal := none }
        { imageWidth := 100, imageHeight := 100, originClean := true }).run
        [OneShotEvent.elapse 3000]).promise
      = ((scanImage (ImageSource.canvas 100 100)
        { complete := true, naturalWidth := 100, signal := none }
        { imageWidth := 100, imageHeight := 100, originClean := true }).run
        [OneShotEvent.message "qrResult" Data.null]).promise ∧
    ((scanImage (ImageSource.canvas 100 100)
        { complete := true, naturalWidth := 100, signal := none }
        { imageWidth := 100, imageHeight := 100, originClean := true }).run
        [OneShotEvent.elapse 3000]).promise
      = some (Settled.rejected Reason.undefined)) ∧
    ((scanImage (ImageSource.canvas 0 0)
        { complete := true, naturalWidth := 100, signal := none }
        { imageWidth := 100, imageHeight := 100, originClean := true }).posted = 0 ∧
    (scanImage (ImageSource.canvas 0 0)
        { complete := true, naturalWidth := 100, signal := none }
        { imageWidth := 100, imageHeight := 100, originClean := true }).promise
      = some (Settled.rejected (Reason.exception "InvalidStateError")) ∧
    ((scanImage (ImageSource.canvas 0 0)
        { complete := true, naturalWidth := 100, signal := none }
        { imageWidth := 100, imageHeight := 100, originClean := true }).run
        [OneShotEvent.elapse 3000]).promise
      = some (Settled.rejected (Reason.exception "InvalidStateError"))) ∧
    ((scanImage (ImageSource.canvas 100 100)
        { complete := true, naturalWidth := 100, signal := none }
        { imageWidth := 100, imageHeight := 100, originClean := true }).run
        [OneShotEvent.error "worker failed",
         OneShotEvent.message "qrResult" (Data.value "payload")]).promise
      = some (Settled.rejected (Reason.errorEvent "worker failed")) := by
  decide

/-- C7, amended: for an input that is a bitmap already and whose pixels
`_getImageData` can read (no dimension of zero, origin-clean), `scanImage` posts one
'decode' message, and as long as the worker fires no 'error' event first it resolves
with the payload when the first 'qrResult' message arrives less than 3000 ms after
the call and its payload is not `null`; it rejects, without a reason, when that
message carries `null`; it rejects, without a reason as well, when 3000 ms pass
without a 'qrResult' message; and once the promise has settled no later event
changes the outcome. -/
theorem one_shot_outcome (input : ImageSource) (b : ImageLoad) (r : Readback)
    (d : ImageData) (hin : input.realized = true)
    (hread : _getImageData input r = Except.ok d) :
    (scanImage input b r).posted = 1 ∧
    (∀ pre data, noResult pre = true → elapsed pre < 3000 → data ≠ Data.null →
      ((scanImage input b r).run (pre ++ [OneShotEvent.message "qrResult" data])).promise
        = some (Settled.resolved data)) ∧
    (∀ pre, noResult pre = true → elapsed pre < 3000 →
      ((scanImage input b r).run (pre ++ [OneShotEvent.message "qrResult" Data.null])).promise
        = some (Settled.rejected Reason.undefined)) ∧
    (∀ pre, noResult pre = true → 3000 ≤ elapsed pre →
      ((scanImage input b r).run pre).promise = some (Settled.rejected Reason.undefined)) ∧
    (∀ events later out, ((scanImage input b r).run events).promise = some out →
      ((scanImage input b r).run (events ++ later)).promise = some out) := by
  rw [scanImage_realized input b r d hin hread]
  refine ⟨rfl, ?_, ?_, ?_, ?_⟩
  · intro pre data hq hd hdata
    rw [OneShot.run_split,
      OneShot.run_before_deadline pre _ 3000 rfl rfl rfl hq (by simpa using hd)]
    simp [OneShot.run, OneShot.step, OneShot.onmessage, OneShot.resolve, hdata]
  · intro pre hq hd
    rw [OneShot.run_split,
      OneShot.run_before_deadline pre _ 3000 rfl rfl rfl hq (by simpa using hd)]
    simp [OneShot.run, OneShot.step, OneShot.onmessage, OneShot.reject]
  · intro pre hq hd
    exact OneShot.run_past_deadline pre _ 3000 rfl rfl rfl hq (by simp) (by simpa using hd)
  · intro events later out h
    rw [OneShot.run_split]
    exact OneShot.run_settled later _ out h

/-- C7 (amended) for a 100 × 100 canvas whose result arrives after 2999 ms. -/
theorem one_shot_outcome_witness :
    ((scanImage (ImageSource.canvas 100 100)
        { complete := true, naturalWidth := 100, signal := none }
        { imageWidth := 100, imageHeight := 100, originClean := true }).run
        ([OneShotEvent.elapse 2999] ++
          [OneShotEvent.message "qrResult" (Data.value "payload")])).promise
      = some (Settled.resolved (Data.value "payload")) :=
  (one_shot_outcome (ImageSource.canvas 100 100)
    { complete := true, naturalWidth := 100, signal := none }
    { imageWidth := 100, imageHeight := 100, originClean := true }
    { width := 100, height := 100 } rfl rfl).2.1
    [OneShotEvent.elapse 2999] (Data.value "payload") rfl (by decide) (by decide)

/-- C8 fails on the code: for a file whose image fails to load, `_loadImage` creates
the object URL and rejects without revoking it; the URL is revoked only in the `then`
handler, that is when the image has loaded. -/
theorem object_url_not_revoked_when_load_fails (name : String) (naturalWidth : Nat) :
    _loadImage (ImageSource.file name)
        { complete := false, naturalWidth := naturalWidth, signal := some LoadSignal.error }
      = (Promise.rejected Reason.undefined, [UrlEffect.createObjectURL name]) ∧
    _loadImage (ImageSource.file name)
        { complete := false, naturalWidth := naturalWidth, signal := some LoadSignal.load }
      = (Promise.fulfilled (ImageSource.image { src := objectURL name }),
         [UrlEffect.createObjectURL name, UrlEffect.revokeObjectURL (objectURL name)]) := by
  simp [_loadImage, _awaitImageLoad]



/-! ## The debounce while no capture request is in flight -/

theorem waited_cons (e : Event) (es : List Event) : waited (e :: es) = waited [e] + waited es := by
  cases e <;> simp [waited]

theorem step_armed (t t' : Scanner) (e : Event) (tm : Timer) (o : Stream)
    (hs : step t e = some t') (he : ∀ a, e ≠ Event.setActive a)
    (hg : t.gumPending = []) (hsrc : t.srcObject = some o) (ht : t.timers = [tm])
    (hoff : t.offTimeout = some tm.id) (hnow : t.now < tm.deadline) :
    t'.gumPending = [] ∧ t'.srcObject = some o ∧ t'.offTimeout = some tm.id ∧
    t'.now = t.now + waited [e] ∧
    ((t'.now < tm.deadline ∧ t'.timers = [tm] ∧ teardowns t' = teardowns t) ∨
     (tm.deadline ≤ t'.now ∧ t'.timers = [] ∧
      teardowns t' = teardowns t ++ [Effect.trackStop o])) := by
  cases e with
  | resize =>
    simp [step, _updateSourceRect] at hs; subst hs
    exact ⟨hg, hsrc, hoff, by simp [waited], Or.inl ⟨hnow, ht, rfl⟩⟩
  | canplay =>
    simp [step, _updateSourceRect] at hs; subst hs
    exact ⟨hg, hsrc, hoff, by simp [waited], Or.inl ⟨hnow, ht, rfl⟩⟩
  | play =>
    simp only [step, Option.some.injEq] at hs
    subst hs
    unfold _scanFrame
    split
    · exact ⟨hg, hsrc, hoff, by simp [waited], Or.inl ⟨hnow, ht, rfl⟩⟩
    · exact ⟨hg, hsrc, hoff, by simp [waited], Or.inl ⟨hnow, ht, by simp [teardowns]⟩⟩
  | message type data =>
    simp only [step, workerAnswers] at hs
    by_cases htype : type = "qrResult"
    · subst htype
      by_cases hu : t.unanswered = 0
      · simp [hu] at hs
      · simp [hu] at hs
        subst hs
        unfold _handleWorkerMessage
        by_cases hd : data = Data.null
        · simp only [hd, ne_eq, not_true_eq_false, if_false, if_true]
          exact ⟨hg, hsrc, hoff, by simp [waited], Or.inl ⟨hnow, ht, by simp [teardowns]⟩⟩
        · simp only [hd, ne_eq, not_true_eq_false, if_false]
          exact ⟨hg, hsrc, hoff, by simp [waited], Or.inl ⟨hnow, ht, by simp [teardowns]⟩⟩
    · simp [htype, _handleWorkerMessage] at hs
      subst hs
      exact ⟨hg, hsrc, hoff, by simp [waited], Or.inl ⟨hnow, ht, rfl⟩⟩
  | animationFrame =>
    simp only [step] at hs
    by_cases hr : t.rafPending = 0
    · simp [hr] at hs
    · simp [hr] at hs
      subst hs
      unfold _scanFrame
      split
      · exact ⟨hg, hsrc, hoff, by simp [waited], Or.inl ⟨hnow, ht, rfl⟩⟩
      · exact ⟨hg, hsrc, hoff, by simp [waited], Or.inl ⟨hnow, ht, by simp [teardowns]⟩⟩
  | setActive active => exact absurd rfl (he active)
  | setGrayscaleWeights r g b =>
    simp [step, setGrayscaleWeights] at hs; subst hs
    exact ⟨hg, hsrc, hoff, by simp [waited], Or.inl ⟨hnow, ht, by simp [teardowns]⟩⟩
  | elapse ms =>
    simp only [step, Option.some.injEq] at hs
    subst hs
    rw [elapse_eq]
    refine ⟨hg, hsrc, hoff, by simp [waited], ?_⟩
    by_cases hdue : tm.deadline ≤ t.now + ms
    · exact Or.inr ⟨hdue, by simp [ht, hdue],
        by simp [teardowns, ht, hdue, teardownEffect, hsrc]⟩
    · have hlt : t.now + ms < tm.deadline := by omega
      exact Or.inl ⟨hlt, by simp [ht, hlt], by simp [teardowns, ht, hlt]⟩
  | streamOpened i stream => simp [step, hg] at hs
  | streamFailed i => simp [step, hg] at hs
  | videoResized w h =>
    simp [step] at hs; subst hs
    exact ⟨hg, hsrc, hoff, by simp [waited], Or.inl ⟨hnow, ht, rfl⟩⟩
  | videoPlayback p en =>
    simp [step] at hs; subst hs
    exact ⟨hg, hsrc, hoff, by simp [waited], Or.inl ⟨hnow, ht, rfl⟩⟩

theorem run_armed (evs : List Event) (t t' : Scanner) (tm : Timer) (o : Stream)
    (hr : run t evs = some t') (he : ∀ a, Event.setActive a ∉ evs)
    (hg : t.gumPending = []) (hsrc : t.srcObject = some o) (ht : t.timers = [tm])
    (hoff : t.offTimeout = some tm.id) (hnow : t.now < tm.deadline) :
    (t.now + waited evs < tm.deadline →
      t'.timers = [tm] ∧ teardowns t' = teardowns t ∧ t'.offTimeout = some tm.id ∧
      t'.srcObject = some o ∧ t'.gumPending = []) ∧
    (tm.deadline ≤ t.now + waited evs →
      t'.timers = [] ∧ teardowns t' = teardowns t ++ [Effect.trackStop o]) := by
  induction evs generalizing t with
  | nil =>
    simp only [run, Option.some.injEq] at hr
    subst hr
    refine ⟨fun _ => ⟨ht, rfl, hoff, hsrc, hg⟩, fun h => ?_⟩
    simp [waited] at h
    omega
  | cons e es ih =>
    simp only [run] at hr
    cases hstep : step t e with
    | none => simp [hstep] at hr
    | some t1 =>
      simp only [hstep, Option.some_bind] at hr
      have hes : ∀ a, Event.setActive a ∉ es := fun a hm => he a (List.mem_cons_of_mem _ hm)
      obtain ⟨h1, h2, h3, h4, h5⟩ := step_armed t t1 e tm o hstep
        (fun a heq => he a (heq ▸ List.mem_cons_self _ _)) hg hsrc ht hoff hnow
      rw [waited_cons]
      rcases h5 with ⟨h5, h6, h7⟩ | ⟨h5, h6, h7⟩
      · obtain ⟨ia, ib⟩ := ih t1 hr hes h1 h2 h6 h3 h5
        rw [h4] at ia ib
        constructor
        · intro h
          have := ia (by omega)
          rw [h7] at this
          exact this
        · intro h
          have := ib (by omega)
          rw [h7] at this
          exact this
      · have hrest := run_no_timer es t1 t' hr (hes false) h6
        constructor
        · intro h
          omega
        · intro _
          exact ⟨hrest.1, by rw [hrest.2, h7]⟩

/-- The debounce in a state in which the session `original` is bound, no timer is
pending and no capture request is in flight.  With `active = false`, then any events
other than an assignment to `active` during less than 3000 ms, then `active = true`,
the session stays bound, no timer is left, and no track is stopped then or after any
later events short of a new `active = false`.  With `active = false` and then any
events other than an assignment to `active` during 3000 ms or more, the track of the
session is stopped exactly once. -/
theorem debounce_without_request_in_flight (s : Scanner) (original : Stream)
    (hsrc : s.srcObject = some original) (ht : s.timers = []) (hg : s.gumPending = []) :
    (∀ (between : List Event) (s1 : Scanner), (∀ a, Event.setActive a ∉ between) →
      waited between < 3000 → run (set_active s false) between = some s1 →
      (set_active s1 true).srcObject = some original ∧ (set_active s1 true).timers = [] ∧
      ∀ (later : List Event) (s2 : Scanner), Event.setActive false ∉ later →
        run (set_active s1 true) later = some s2 → teardowns s2 = teardowns s) ∧
    (∀ (during : List Event) (s1 : Scanner), (∀ a, Event.setActive a ∉ during) →
      3000 ≤ waited during → run (set_active s false) during = some s1 →
      teardowns s1 = teardowns s ++ [Effect.trackStop original]) := by
  have hoff : (set_active s false).timers
      = [{ id := s.nextTimerId, deadline := s.now + 3000 }] := by
    simp [set_active, _cameraOff, setTimeout, ht]
  have hnow : (set_active s false).now = s.now := by
    simp [set_active, _cameraOff, setTimeout]
  have hoffsrc : (set_active s false).srcObject = some original := by
    simpa [set_active, _cameraOff, setTimeout] using hsrc
  have hofft : teardowns (set_active s false) = teardowns s := by
    simp [set_active, _cameraOff, setTimeout, teardowns]
  have hoffg : (set_active s false).gumPending = [] := by
    simpa [set_active, _cameraOff, setTimeout] using hg
  have hoffid : (set_active s false).offTimeout = some s.nextTimerId := by
    simp [set_active, _cameraOff, setTimeout]
  constructor
  · intro between s1 hb hw hr
    obtain ⟨h1, h2, h3, h4, h5⟩ := (run_armed between (set_active s false) s1
      { id := s.nextTimerId, deadline := s.now + 3000 } original hr hb hoffg hoffsrc hoff
      hoffid (by rw [hnow]; simp)).1 (by rw [hnow]; simpa using hw)
    have hon : (set_active s1 true).timers = [] := by
      simp [set_active, _cameraOn, clearTimeout, h1, h3]
    have hont : teardowns (set_active s1 true) = teardowns s := by
      rw [← hofft, ← h2]
      simp only [set_active, _cameraOn, clearTimeout, if_true]
      split <;> simp [teardowns]
    refine ⟨by rw [set_active, if_pos rfl, _cameraOn_srcObject]; exact h4, hon, ?_⟩
    intro later s2 hl hr2
    rw [(run_no_timer later _ s2 hr2 hl hon).2, hont]
  · intro during s1 hd hw hr
    rw [((run_armed during (set_active s false) s1
      { id := s.nextTimerId, deadline := s.now + 3000 } original hr hd hoffg hoffsrc hoff
      hoffid (by rw [hnow]; simp)).2 (by rw [hnow]; simpa using hw)).2, hofft]

/-- The debounce lemma at a camera bound to stream 1: deactivation, 1000 ms, a 'play'
event and 2000 ms more stop the track once. -/
theorem debounce_without_request_in_flight_witness :
    teardowns ((run (set_active (constructor 640 480 false false (some 1) 300) false)
        [Event.elapse 1000, Event.play, Event.elapse 2000]).getD
          (constructor 640 480 false false (some 1) 300))
      = teardowns (constructor 640 480 false false (some 1) 300) ++ [Effect.trackStop 1] :=
  (debounce_without_request_in_flight (constructor 640 480 false false (some 1) 300) 1
    rfl rfl rfl).2 [Event.elapse 1000, Event.play, Event.elapse 2000] _
    (by intro a; simp) (by decide) (by rfl)

end QrScannerLib
